import Mathlib

/-!
Shallow embedding of the AIHackweek legislative scraper
(`scrapeBillText.py`, `billDashboardScraper.py`) and verification of the
specification's claims about it.

Conventions:
* Python strings are `String` (lists of characters where structural
  recursion is needed).
* Fallible operations are `Option`/`Except`.
* Python `try/except` blocks are modelled by an `Except`-valued "body"
  function together with an outer handler that converts `.error` to the
  handler's return value.
* Environment interaction (browser, network, filesystem, PDF decoding)
  is supplied by explicit oracle values recording what each external call
  would produce; the embedded control flow consuming those oracles is
  translated line by line from the source.
-/

namespace Scraper

/-! ## `scrapeBillText.extract_bill_info` (lines 25-52)

The source matches the URL with `re.match` against
  `https?://legiscan\.com/([^/]+)/text/([^/]+)/id/(\d+)`
  `https?://legiscan\.com/([^/]+)/bill/([^/]+)/(\d+)`
  `https?://legiscan\.com/([^/]+)/drafts/([^/]+)/(\d+)`
in that order.  Because `[^/]+` cannot cross a `/`, each of these regexes
is equivalent to the deterministic parser below: literal scheme, literal
host, a nonempty `/`-free segment, a literal separator, a second nonempty
`/`-free segment, a separator, and at least one leading digit (trailing
characters are unconstrained, as `re.match` does not anchor the end). -/

/-- Drop the literal prefix `p` from `s`, or fail. -/
def dropLit : List Char → List Char → Option (List Char)
  | [], s => some s
  | _ :: _, [] => none
  | c :: p, d :: s => if c = d then dropLit p s else none

/-- Consume the regex `https?://`: "http", an optional "s", then "://". -/
def dropScheme (s : List Char) : Option (List Char) :=
  match dropLit "http".toList s with
  | none => none
  | some r =>
    match dropLit "s://".toList r with
    | some r2 => some r2
    | none => dropLit "://".toList r

/-- Split off the maximal run of non-`/` characters. -/
def spanSeg : List Char → List Char × List Char
  | [] => ([], [])
  | c :: s =>
    if c = '/' then ([], c :: s)
    else
      let p := spanSeg s
      (c :: p.1, p.2)

/-- Consume one `[^/]+` group: the maximal nonempty run of non-`/` chars. -/
def takeSeg (s : List Char) : Option (List Char × List Char) :=
  match spanSeg s with
  | ([], _) => none
  | (seg, r) => some (seg, r)

/-- Require that the rest starts with at least one decimal digit (`\d+`
followed by end-of-pattern under `re.match`). -/
def startsWithDigit : List Char → Bool
  | [] => false
  | c :: _ => c.isDigit

/-- The part of the pattern after the first captured group: the literal
separator, the second `[^/]+` group, the literal tail and `\d`. -/
def matchBillUrlTail (sep tail : List Char) (r : List Char) :
    Option (List Char) :=
  match dropLit sep r with
  | none => none
  | some r =>
    match takeSeg r with
    | none => none
    | some (g2, r) =>
      match dropLit tail r with
      | none => none
      | some r => if startsWithDigit r then some g2 else none

/-- Match `https?://legiscan\.com/([^/]+){sep}([^/]+){tail}\d...` and
return the two captured groups.  `sep` is `/text/`, `/bill/` or
`/drafts/`; `tail` is `/id/` or `/`. -/
def matchBillUrl (sep tail : List Char) (s : List Char) :
    Option (List Char × List Char) :=
  match dropScheme s with
  | none => none
  | some r =>
    match dropLit "legiscan.com/".toList r with
    | none => none
    | some r =>
      match takeSeg r with
      | none => none
      | some (g1, r) =>
        match matchBillUrlTail sep tail r with
        | none => none
        | some g2 => some (g1, g2)

/-- The function `extract_bill_info` (scrapeBillText.py:25).  Tries the `text`, `bill`
and `drafts` patterns in order; on a match returns
`"{state}_{bill_number}"`, otherwise the sentinel `"unknown_bill"`. -/
def extract_bill_info (url : String) : String :=
  let s := url.toList
  match matchBillUrl "/text/".toList "/id/".toList s with
  | some (st, bn) => String.mk st ++ "_" ++ String.mk bn
  | none =>
    match matchBillUrl "/bill/".toList "/".toList s with
    | some (st, bn) => String.mk st ++ "_" ++ String.mk bn
    | none =>
      match matchBillUrl "/drafts/".toList "/".toList s with
      | some (st, bn) => String.mk st ++ "_" ++ String.mk bn
      | none => "unknown_bill"

example : extract_bill_info "https://legiscan.com/ca/bill/SB1/123" = "ca_SB1" := by decide
example : extract_bill_info "http://legiscan.com/TX/text/HB2/id/98765" = "TX_HB2" := by decide
example : extract_bill_info "https://legiscan.com/AK/drafts/SB10/55" = "AK_SB10" := by decide
example : extract_bill_info "https://site.example/ca/bill/SB1/123" = "unknown_bill" := by decide
example : extract_bill_info "https://legiscan.com/ca/bill/SB1/x23" = "unknown_bill" := by decide

theorem dropLit_append (p s : List Char) : dropLit p (p ++ s) = some s := by
  induction p with
  | nil => rfl
  | cons c p ih => simp [dropLit, ih]

theorem spanSeg_append (seg r : List Char) (h : ∀ c ∈ seg, ¬ c = '/') :
    spanSeg (seg ++ '/' :: r) = (seg, '/' :: r) := by
  induction seg with
  | nil => simp [spanSeg]
  | cons a as ih =>
    have ha : ¬ a = '/' := h a (by simp)
    simp [spanSeg, ha, ih (fun c hc => h c (by simp [hc]))]

theorem takeSeg_append (seg r : List Char) (hne : ¬ seg = [])
    (h : ∀ c ∈ seg, ¬ c = '/') :
    takeSeg (seg ++ '/' :: r) = some (seg, '/' :: r) := by
  cases seg with
  | nil => exact absurd rfl hne
  | cons a as =>
    have hs := spanSeg_append (a :: as) r h
    simp only [List.cons_append] at hs
    simp [takeSeg, hs]

/-- A URL on the `legiscan.com` host with `https` scheme, as characters. -/
def legiscanUrl (mid : List Char) : List Char :=
  "http".toList ++ ("s://".toList ++ ("legiscan.com/".toList ++ mid))

theorem dropScheme_legiscan (mid : List Char) :
    dropScheme (legiscanUrl mid) = some ("legiscan.com/".toList ++ mid) := by
  unfold dropScheme legiscanUrl
  simp only [dropLit_append]

/-- After the scheme, the host and the first `[^/]+` group, every bill-URL
pattern reduces to matching the separator against the remaining text. -/
theorem matchBillUrl_after_seg (sep tail : List Char) (j rest : List Char)
    (hj : ¬ j = []) (hjc : ∀ c ∈ j, ¬ c = '/') :
    matchBillUrl sep tail (legiscanUrl (j ++ '/' :: rest)) =
      (match matchBillUrlTail sep tail ('/' :: rest) with
       | none => none
       | some g2 => some (j, g2)) := by
  unfold matchBillUrl
  simp only [dropScheme_legiscan, dropLit_append, takeSeg_append j rest hj hjc]

theorem matchBillUrl_shape (sepR tailR j b rest : List Char)
    (hj : ¬ j = []) (hjc : ∀ c ∈ j, ¬ c = '/')
    (hb : ¬ b = []) (hbc : ∀ c ∈ b, ¬ c = '/')
    (hd : startsWithDigit rest = true) :
    matchBillUrl ('/' :: sepR) ('/' :: tailR)
      (legiscanUrl (j ++ '/' :: (sepR ++ (b ++ '/' :: (tailR ++ rest))))) =
      some (j, b) := by
  rw [matchBillUrl_after_seg _ _ j _ hj hjc]
  have h1 : dropLit ('/' :: sepR) ('/' :: (sepR ++ (b ++ '/' :: (tailR ++ rest)))) =
      some (b ++ '/' :: (tailR ++ rest)) := by
    simpa using dropLit_append ('/' :: sepR) (b ++ '/' :: (tailR ++ rest))
  have h3 : dropLit ('/' :: tailR) ('/' :: (tailR ++ rest)) = some rest := by
    simpa using dropLit_append ('/' :: tailR) rest
  unfold matchBillUrlTail
  simp only [h1, takeSeg_append b (tailR ++ rest) hb hbc, h3, hd, if_true]

/-- Behavior of `extract_bill_info` on a `/{state}/text/{bill}/id/{digits}` URL. -/
theorem extract_text_shape (j b rest : List Char)
    (hj : ¬ j = []) (hjc : ∀ c ∈ j, ¬ c = '/')
    (hb : ¬ b = []) (hbc : ∀ c ∈ b, ¬ c = '/')
    (hd : startsWithDigit rest = true) :
    extract_bill_info
      ⟨legiscanUrl (j ++ '/' :: ("text/".toList ++ (b ++ '/' :: ("id/".toList ++ rest))))⟩ =
      String.mk j ++ "_" ++ String.mk b := by
  have hT := matchBillUrl_shape "text/".toList "id/".toList j b rest hj hjc hb hbc hd
  unfold extract_bill_info
  dsimp only [String.toList] at hT ⊢
  rw [hT]

/-- Behavior of `extract_bill_info` on a `/{state}/bill/{bill}/{digits}` URL: the
`text` pattern fails at the separator, the `bill` pattern matches. -/
theorem extract_bill_shape (j b rest : List Char)
    (hj : ¬ j = []) (hjc : ∀ c ∈ j, ¬ c = '/')
    (hb : ¬ b = []) (hbc : ∀ c ∈ b, ¬ c = '/')
    (hd : startsWithDigit rest = true) :
    extract_bill_info
      ⟨legiscanUrl (j ++ '/' :: ("bill/".toList ++ (b ++ '/' :: rest)))⟩ =
      String.mk j ++ "_" ++ String.mk b := by
  have hB := matchBillUrl_shape "bill/".toList [] j b rest hj hjc hb hbc hd
  simp only [List.nil_append] at hB
  have hT : matchBillUrl ('/' :: "text/".toList) ('/' :: "id/".toList)
      (legiscanUrl (j ++ '/' :: ("bill/".toList ++ (b ++ '/' :: rest)))) = none := by
    rw [matchBillUrl_after_seg _ _ j _ hj hjc]
    rfl
  unfold extract_bill_info
  dsimp only [String.toList] at hT hB ⊢
  rw [hT, hB]

/-- Behavior of `extract_bill_info` on a `/{state}/drafts/{bill}/{digits}` URL: the
`text` and `bill` patterns fail at the separator, `drafts` matches. -/
theorem extract_drafts_shape (j b rest : List Char)
    (hj : ¬ j = []) (hjc : ∀ c ∈ j, ¬ c = '/')
    (hb : ¬ b = []) (hbc : ∀ c ∈ b, ¬ c = '/')
    (hd : startsWithDigit rest = true) :
    extract_bill_info
      ⟨legiscanUrl (j ++ '/' :: ("drafts/".toList ++ (b ++ '/' :: rest)))⟩ =
      String.mk j ++ "_" ++ String.mk b := by
  have hD := matchBillUrl_shape "drafts/".toList [] j b rest hj hjc hb hbc hd
  simp only [List.nil_append] at hD
  have hT : matchBillUrl ('/' :: "text/".toList) ('/' :: "id/".toList)
      (legiscanUrl (j ++ '/' :: ("drafts/".toList ++ (b ++ '/' :: rest)))) = none := by
    rw [matchBillUrl_after_seg _ _ j _ hj hjc]
    rfl
  have hB : matchBillUrl ('/' :: "bill/".toList) ('/' :: ([] : List Char))
      (legiscanUrl (j ++ '/' :: ("drafts/".toList ++ (b ++ '/' :: rest)))) = none := by
    rw [matchBillUrl_after_seg _ _ j _ hj hjc]
    rfl
  unfold extract_bill_info
  dsimp only [String.toList] at hT hB hD ⊢
  rw [hT, hB, hD]

/-- C1, counterexample.  The claim asserts that any URL whose *path*
matches `/{jurisdiction}/bill/{billnum}/{id}` yields
`"{jurisdiction}_{billnumber}"`, and in particular that
`extract_bill_info("https://site.example/ca/bill/SB1/123") = "ca_SB1"`.
The source regexes are anchored to the host `legiscan.com`, so this URL
matches none of the three patterns and yields the sentinel instead. -/
theorem claim_C1_counterexample :
    extract_bill_info "https://site.example/ca/bill/SB1/123" = "unknown_bill" ∧
    ¬ extract_bill_info "https://site.example/ca/bill/SB1/123" = "ca_SB1" := by
  exact ⟨by decide, by decide⟩

/-- C1, amended: for URLs on the host `legiscan.com` (scheme `https`) of
the three recognized shapes `/{j}/text/{b}/id/{digits}`,
`/{j}/bill/{b}/{digits}` and `/{j}/drafts/{b}/{digits}` (with `j`, `b`
nonempty and slash-free and the id starting with a digit),
`extract_bill_info` returns `"{j}_{b}"`; for every URL matching none of
the three host-anchored patterns it returns `"unknown_bill"`; in
particular `https://legiscan.com/ca/bill/SB1/123 → ca_SB1`. -/
theorem claim_C1 (j b rest : String)
    (hj : ¬ j.data = []) (hjc : ∀ c ∈ j.data, ¬ c = '/')
    (hb : ¬ b.data = []) (hbc : ∀ c ∈ b.data, ¬ c = '/')
    (hd : startsWithDigit rest.data = true) :
    extract_bill_info ("https://legiscan.com/" ++ j ++ "/text/" ++ b ++ "/id/" ++ rest) =
      j ++ "_" ++ b ∧
    extract_bill_info ("https://legiscan.com/" ++ j ++ "/bill/" ++ b ++ "/" ++ rest) =
      j ++ "_" ++ b ∧
    extract_bill_info ("https://legiscan.com/" ++ j ++ "/drafts/" ++ b ++ "/" ++ rest) =
      j ++ "_" ++ b ∧
    (∀ url : String,
      matchBillUrl "/text/".toList "/id/".toList url.toList = none →
      matchBillUrl "/bill/".toList "/".toList url.toList = none →
      matchBillUrl "/drafts/".toList "/".toList url.toList = none →
      extract_bill_info url = "unknown_bill") ∧
    extract_bill_info "https://legiscan.com/ca/bill/SB1/123" = "ca_SB1" := by
  refine ⟨?_, ?_, ?_, ?_, by decide⟩
  · have hdata : ("https://legiscan.com/" ++ j ++ "/text/" ++ b ++ "/id/" ++ rest).data
        = legiscanUrl (j.data ++ '/' :: ("text/".toList ++ (b.data ++ '/' :: ("id/".toList ++ rest.data)))) := by
      show ((((("https://legiscan.com/".data ++ j.data) ++ "/text/".data) ++ b.data) ++ "/id/".data) ++ rest.data) = _
      simp only [List.append_assoc]
      rfl
    have e : ("https://legiscan.com/" ++ j ++ "/text/" ++ b ++ "/id/" ++ rest)
        = String.mk (legiscanUrl (j.data ++ '/' :: ("text/".toList ++ (b.data ++ '/' :: ("id/".toList ++ rest.data))))) :=
      congrArg String.mk hdata
    rw [e]
    exact extract_text_shape j.data b.data rest.data hj hjc hb hbc hd
  · have hdata : ("https://legiscan.com/" ++ j ++ "/bill/" ++ b ++ "/" ++ rest).data
        = legiscanUrl (j.data ++ '/' :: ("bill/".toList ++ (b.data ++ '/' :: rest.data))) := by
      show ((((("https://legiscan.com/".data ++ j.data) ++ "/bill/".data) ++ b.data) ++ "/".data) ++ rest.data) = _
      simp only [List.append_assoc]
      rfl
    have e : ("https://legiscan.com/" ++ j ++ "/bill/" ++ b ++ "/" ++ rest)
        = String.mk (legiscanUrl (j.data ++ '/' :: ("bill/".toList ++ (b.data ++ '/' :: rest.data)))) :=
      congrArg String.mk hdata
    rw [e]
    exact extract_bill_shape j.data b.data rest.data hj hjc hb hbc hd
  · have hdata : ("https://legiscan.com/" ++ j ++ "/drafts/" ++ b ++ "/" ++ rest).data
        = legiscanUrl (j.data ++ '/' :: ("drafts/".toList ++ (b.data ++ '/' :: rest.data))) := by
      show ((((("https://legiscan.com/".data ++ j.data) ++ "/drafts/".data) ++ b.data) ++ "/".data) ++ rest.data) = _
      simp only [List.append_assoc]
      rfl
    have e : ("https://legiscan.com/" ++ j ++ "/drafts/" ++ b ++ "/" ++ rest)
        = String.mk (legiscanUrl (j.data ++ '/' :: ("drafts/".toList ++ (b.data ++ '/' :: rest.data)))) :=
      congrArg String.mk hdata
    rw [e]
    exact extract_drafts_shape j.data b.data rest.data hj hjc hb hbc hd
  · intro url h1 h2 h3
    unfold extract_bill_info
    dsimp only [String.toList] at h1 h2 h3 ⊢
    rw [h1, h2, h3]

/-- C1, witness: the amended theorem applied at
`j = "ca"`, `b = "SB1"`, `rest = "123"` (the `/bill/` shape). -/
theorem claim_C1_witness :
    extract_bill_info ("https://legiscan.com/" ++ "ca" ++ "/bill/" ++ "SB1" ++ "/" ++ "123") =
      "ca" ++ "_" ++ "SB1" :=
  (claim_C1 "ca" "SB1" "123" (by decide) (by decide) (by decide) (by decide)
    (by decide)).2.1

/-! ## `scrapeBillText.is_html_bill_text` (lines 307-349) and the
format-selection branch of `download_bill_text` (lines 281-291)

The relevant observations the detector makes on the rendered page are
whether `'[HTML]'` occurs in the page source, whether an element of class
`billtext` or of id `bill_all` exists, and whether a PDF object/link
exists.  These four lookups are the page-state oracle. -/

structure PageState where
  hasHtmlMarker : Bool
  hasBilltextClass : Bool
  hasBillAllId : Bool
  hasPdfElement : Bool
deriving DecidableEq

/-- The detector `is_html_bill_text` (scrapeBillText.py:307): the HTML marker, then
the `billtext` class, then the `bill_all` id each classify as HTML; a PDF
object or `.pdf` link classifies as not-HTML; otherwise (no PDF element
found) the page is classified as HTML. -/
def is_html_bill_text (p : PageState) : Bool :=
  if p.hasHtmlMarker then true
  else if p.hasBilltextClass then true
  else if p.hasBillAllId then true
  else if p.hasPdfElement then false
  else true

inductive BillFormat
  | html
  | pdf
deriving DecidableEq

/-- The branch selection at scrapeBillText.py:282:
`if prefer_format == 'html' or (is_html_bill_text(driver) and
prefer_format != 'pdf')` takes the HTML branch
(`extract_html_bill_text`), otherwise the PDF branch
(`download_pdf_bill`).  `prefer_format` is `None`, `'html'` or `'pdf'`. -/
def chooseBranch (prefer_format : Option String) (p : PageState) : BillFormat :=
  if prefer_format = some "html" ∨
      (is_html_bill_text p = true ∧ ¬ prefer_format = some "pdf") then
    BillFormat.html
  else BillFormat.pdf

/-- C2, counterexample.  The claim asserts that with
`prefer_format="pdf"` the PDF branch is taken *only when*
`is_html_bill_text` finds no HTML-specific markers, and that
classification still defaults to HTML on an ambiguous page even when PDF
was requested.  In the source, `prefer_format == 'pdf'` falsifies both
disjuncts of the branch condition, so the PDF branch is always taken:
on a page carrying the `'[HTML]'` marker (detection returns `true`) the
branch is PDF, and on a fully ambiguous page (no markers at all,
detection defaults to `true`) the branch is PDF as well, not HTML. -/
theorem claim_C2_counterexample :
    is_html_bill_text ⟨true, false, false, false⟩ = true ∧
    chooseBranch (some "pdf") ⟨true, false, false, false⟩ = BillFormat.pdf ∧
    is_html_bill_text ⟨false, false, false, false⟩ = true ∧
    chooseBranch (some "pdf") ⟨false, false, false, false⟩ = BillFormat.pdf := by
  exact ⟨by decide, by decide, by decide, by decide⟩

/-- C2, amended: a caller preference of `"html"` always forces the HTML
branch without consulting the detection result; a caller preference of
`"pdf"` always forces the PDF branch (the detection result is ignored
for branch selection); with no preference the branch follows
`is_html_bill_text`, which classifies an ambiguous page (no HTML markers
and no PDF element) as HTML. -/
theorem claim_C2 :
    ∀ p : PageState,
      chooseBranch (some "html") p = BillFormat.html ∧
      chooseBranch (some "pdf") p = BillFormat.pdf ∧
      chooseBranch none p =
        (if is_html_bill_text p then BillFormat.html else BillFormat.pdf) ∧
      is_html_bill_text ⟨false, false, false, false⟩ = true := by
  intro p
  refine ⟨by simp [chooseBranch], ?_, ?_, by decide⟩
  · simp [chooseBranch]
  · by_cases h : is_html_bill_text p = true
    · simp [chooseBranch, h]
    · simp [chooseBranch, h, Bool.not_eq_true _ ▸ h]

/-! ## `billDashboardScraper.main` (lines 727-746): the per-jurisdiction
batch sweep

Each iteration calls `scrape_state` inside a `try`: a `True` return is
recorded as `"Success"`, a `False` return as `"Failed"`, and an
exception is caught and recorded as `"ERROR"`, after which the loop
proceeds to the next jurisdiction.  The outcome of each `scrape_state`
call is the oracle. -/

inductive ScrapeOutcome
  | ok (success : Bool)
  | raises
deriving DecidableEq

/-- The status string recorded in `results[state]` for one iteration of
the loop at billDashboardScraper.py:731-746. -/
def statusOf : ScrapeOutcome → String
  | ScrapeOutcome.ok true => "Success"
  | ScrapeOutcome.ok false => "Failed"
  | ScrapeOutcome.raises => "ERROR"

/-- The sweep loop: each jurisdiction is paired with the outcome of its
`scrape_state` call; every iteration appends a status and continues
(the `except` clause swallows the exception and the `for` proceeds). -/
def mainLoop : List (String × ScrapeOutcome) → List (String × String)
  | [] => []
  | (st, o) :: rest => (st, statusOf o) :: mainLoop rest

/-- C3, counterexample.  The claim asserts the terminal statuses are
drawn from `{"Success","Failed","Error"}` and that a 3-jurisdiction run
whose second jurisdiction throws yields `Success, Error, Success`.  The
source records the string literal `"ERROR"` (uppercase,
billDashboardScraper.py:745), which is none of the three claimed
strings, so the run yields `Success, ERROR, Success` instead. -/
theorem claim_C3_counterexample :
    (mainLoop [("CA", ScrapeOutcome.ok true), ("TX", ScrapeOutcome.raises),
      ("NY", ScrapeOutcome.ok true)]).map Prod.snd =
      ["Success", "ERROR", "Success"] ∧
    ¬ ("ERROR" = "Success" ∨ "ERROR" = "Failed" ∨ "ERROR" = "Error") := by
  exact ⟨by decide, by decide⟩

/-- C3, amended: every jurisdiction in the input list receives a
terminal status drawn from `{"Success","Failed","ERROR"}` —
`"Success"`/`"Failed"` from `scrape_state`'s boolean result and
`"ERROR"` when it raises — and an exception in one jurisdiction never
prevents later jurisdictions from being processed: the statuses are in
one-to-one order-preserving correspondence with the inputs, and a
3-jurisdiction run whose second jurisdiction throws still yields
terminal statuses `Success, ERROR, Success`. -/
theorem claim_C3 :
    (∀ inputs : List (String × ScrapeOutcome),
      (mainLoop inputs).map Prod.fst = inputs.map Prod.fst ∧
      (mainLoop inputs).all
        (fun r => r.2 == "Success" || r.2 == "Failed" || r.2 == "ERROR") = true) ∧
    (∀ a b c : String,
      mainLoop [(a, ScrapeOutcome.ok true), (b, ScrapeOutcome.raises),
        (c, ScrapeOutcome.ok true)] =
        [(a, "Success"), (b, "ERROR"), (c, "Success")]) := by
  constructor
  · intro inputs
    induction inputs with
    | nil => exact ⟨rfl, rfl⟩
    | cons hd tl ih =>
      obtain ⟨st, o⟩ := hd
      refine ⟨by simpa [mainLoop] using ih.1, ?_⟩
      have h2 := ih.2
      cases o with
      | ok b => cases b <;> simpa [mainLoop, statusOf] using h2
      | raises => simpa [mainLoop, statusOf] using h2
  · intro a b c
    rfl

/-! ## `billDashboardScraper.LegiScanScraperSelenium` (lines 124-519)

The five section scrapers operate on `self.soup`.  The oracle records,
per section, what the document-level lookups produce (`find` for the
named anchor, `find_next`/`find_next_siblings` for the tables) and, per
table row, the cells with the sub-elements the row loop queries.  A
lookup or a row may also raise (BeautifulSoup navigation on unusual node
shapes), which is what the source's `try/except` layers are for:
document-level exceptions are caught by the outer handler of each
method, row-level exceptions by the inner `except ... continue`. -/

/-- An `<a>` element as consumed by the scrapers: `get("href")` and
`.text`. -/
structure Tag where
  href : Option String
  text : String
deriving DecidableEq

/-- The `div.gaits-browse-action` sub-element of an action cell. -/
structure ActionDiv where
  link : Option Tag
  text : String
deriving DecidableEq

/-- A `<td>` cell with the sub-lookups the row loops perform:
`cell.find("a")`, `cell.text`, `cell.find("span", class
gaits-browse-date)` (its text), `cell.find("div", class
gaits-browse-action)`. -/
structure Cell where
  link : Option Tag
  text : String
  dateSpan : Option String
  actionDiv : Option ActionDiv
deriving DecidableEq

/-- A `<tr>` row: either its cells, or `bad` — processing the row raises
somewhere (caught by the per-row `except`). -/
inductive Row
  | bad
  | cells (cs : List Cell)
deriving DecidableEq

/-- A scraped record: an insertion-ordered dict, as the source builds
with a `dict` literal. -/
def Record := List (String × String)
deriving DecidableEq

/-- Python truthiness of `tag.get("href")`: `None` and `""` are falsy. -/
def truthy : Option String → Bool
  | none => false
  | some s => if s = "" then false else true

/-- Python `str.strip()`: remove leading and trailing whitespace. -/
def pyStrip (s : String) : String :=
  String.mk
    (((s.data.dropWhile Char.isWhitespace).reverse.dropWhile
      Char.isWhitespace).reverse)

/-- A document-level lookup (`soup.find` / `anchor.find_next`): the
element may be absent, present, or the navigation may raise. -/
inductive Lookup (α : Type)
  | missing
  | found (a : α)
  | raises

/-- A document-level lookup that always yields a value unless it raises
(`find_next_siblings` returns a list, possibly empty). -/
inductive Fetch (α : Type)
  | ok (a : α)
  | raises

/-- The row loop shared by all five scrapers: each row is processed in a
`try`; a raising row (`Except.error`) is skipped by the `except ...
continue`, a row yielding `none` was skipped by an explicit `continue`,
and a produced record is appended.  Extraction always continues with the
remaining rows. -/
def processRows (f : Row → Except Unit (Option Record)) : List Row → List Record
  | [] => []
  | r :: rs =>
    match f r with
    | Except.error _ => processRows f rs
    | Except.ok none => processRows f rs
    | Except.ok (some rec) => rec :: processRows f rs

/-- One row of the active-bills loop (billDashboardScraper.py:153-204):
fewer than 3 cells ⇒ skip; first cell without an `<a>` carrying a truthy
href ⇒ skip; otherwise build the record from fixed cell positions. -/
def processActiveRow (state : String) : Row → Except Unit (Option Record)
  | Row.bad => Except.error ()
  | Row.cells cols =>
    match cols with
    | c0 :: c1 :: c2 :: _ =>
      match c0.link with
      | none => Except.ok none
      | some a =>
        if truthy a.href = false then Except.ok none
        else
          let billNumber := pyStrip a.text
          let billUrl := "https://legiscan.com" ++ a.href.getD ""
          let summary := pyStrip c1.text
          let date := match c2.dateSpan with
            | some t => pyStrip t
            | none => "N/A"
          let actionPair := match c2.actionDiv with
            | none => ("N/A", "")
            | some dv =>
              match dv.link with
              | some al =>
                if truthy al.href then
                  (pyStrip al.text, "https://legiscan.com" ++ al.href.getD "")
                else (pyStrip dv.text, "")
              | none => (pyStrip dv.text, "")
          Except.ok (some [("Bill Number", billNumber), ("Bill URL", billUrl),
            ("Summary", summary), ("Action", actionPair.1),
            ("Action URL", actionPair.2), ("Date", date), ("State", state)])
    | _ => Except.ok none

/-- The document state a single-table section consumes: `self.soup`
presence, the named anchor lookup, and the
`find_next("table", class gaits-browser)` lookup with the table's `<tr>`
rows. -/
structure TableDoc where
  soupPresent : Bool
  anchor : Lookup Unit
  tableRows : Lookup (List Row)

/-- The body of `scrape_active_bills` inside its `try`
(billDashboardScraper.py:130-207): missing anchor or missing table ⇒
`None`; otherwise drop the header row and run the row loop, returning
the (possibly empty) list. -/
def scrapeActiveBody (state : String) (d : TableDoc) :
    Except Unit (Option (List Record)) :=
  match d.anchor with
  | Lookup.raises => Except.error ()
  | Lookup.missing => Except.ok none
  | Lookup.found _ =>
    match d.tableRows with
    | Lookup.raises => Except.error ()
    | Lookup.missing => Except.ok none
    | Lookup.found rows =>
      Except.ok (some (processRows (processActiveRow state) (rows.drop 1)))

/-- The method `scrape_active_bills` (billDashboardScraper.py:124): soup absent ⇒
`None`; the outer `except` maps any raise from the body to `None`. -/
def scrape_active_bills (state : String) (d : TableDoc) :
    Option (List Record) :=
  if d.soupPresent = false then none
  else
    match scrapeActiveBody state d with
    | Except.ok r => r
    | Except.error _ => none

/-- One row of the viewed-bills loop (billDashboardScraper.py:414-447). -/
def processViewedRow (state : String) : Row → Except Unit (Option Record)
  | Row.bad => Except.error ()
  | Row.cells cols =>
    match cols with
    | c0 :: c1 :: c2 :: _ =>
      match c0.link with
      | none => Except.ok none
      | some a =>
        if truthy a.href = false then Except.ok none
        else
          let billNumber := pyStrip a.text
          let billUrl := "https://legiscan.com" ++ a.href.getD ""
          let summary := pyStrip c1.text
          let textUrl := match c2.link with
            | some tl =>
              if truthy tl.href then "https://legiscan.com" ++ tl.href.getD ""
              else ""
            | none => ""
          Except.ok (some [("Bill Number", billNumber), ("Bill URL", billUrl),
            ("Summary", summary), ("Text URL", textUrl), ("State", state)])
    | _ => Except.ok none

/-- One row of the monitored-bills loop (billDashboardScraper.py:479-512);
the source duplicates the viewed-bills logic verbatim. -/
def processMonitoredRow (state : String) : Row → Except Unit (Option Record)
  | Row.bad => Except.error ()
  | Row.cells cols =>
    match cols with
    | c0 :: c1 :: c2 :: _ =>
      match c0.link with
      | none => Except.ok none
      | some a =>
        if truthy a.href = false then Except.ok none
        else
          let billNumber := pyStrip a.text
          let billUrl := "https://legiscan.com" ++ a.href.getD ""
          let summary := pyStrip c1.text
          let textUrl := match c2.link with
            | some tl =>
              if truthy tl.href then "https://legiscan.com" ++ tl.href.getD ""
              else ""
            | none => ""
          Except.ok (some [("Bill Number", billNumber), ("Bill URL", billUrl),
            ("Summary", summary), ("Text URL", textUrl), ("State", state)])
    | _ => Except.ok none

/-- The body of `scrape_viewed_bills` (billDashboardScraper.py:397-450);
unlike active bills, an empty record list is returned as `None`
(`return viewed_bills if viewed_bills else None`). -/
def scrapeViewedBody (state : String) (d : TableDoc) :
    Except Unit (Option (List Record)) :=
  match d.anchor with
  | Lookup.raises => Except.error ()
  | Lookup.missing => Except.ok none
  | Lookup.found _ =>
    match d.tableRows with
    | Lookup.raises => Except.error ()
    | Lookup.missing => Except.ok none
    | Lookup.found rows =>
      let vb := processRows (processViewedRow state) (rows.drop 1)
      Except.ok (if vb.isEmpty then none else some vb)

/-- The method `scrape_viewed_bills` (billDashboardScraper.py:391). -/
def scrape_viewed_bills (state : String) (d : TableDoc) :
    Option (List Record) :=
  if d.soupPresent = false then none
  else
    match scrapeViewedBody state d with
    | Except.ok r => r
    | Except.error _ => none

/-- The body of `scrape_monitored_bills`
(billDashboardScraper.py:462-515). -/
def scrapeMonitoredBody (state : String) (d : TableDoc) :
    Except Unit (Option (List Record)) :=
  match d.anchor with
  | Lookup.raises => Except.error ()
  | Lookup.missing => Except.ok none
  | Lookup.found _ =>
    match d.tableRows with
    | Lookup.raises => Except.error ()
    | Lookup.missing => Except.ok none
    | Lookup.found rows =>
      let mb := processRows (processMonitoredRow state) (rows.drop 1)
      Except.ok (if mb.isEmpty then none else some mb)

/-- The method `scrape_monitored_bills` (billDashboardScraper.py:456). -/
def scrape_monitored_bills (state : String) (d : TableDoc) :
    Option (List Record) :=
  if d.soupPresent = false then none
  else
    match scrapeMonitoredBody state d with
    | Except.ok r => r
    | Except.error _ => none

/-- Prefix test on character lists for the Python `in` substring check. -/
def startsWithL : List Char → List Char → Bool
  | [], _ => true
  | _ :: _, [] => false
  | a :: as, b :: bs => if a = b then startsWithL as bs else false

/-- Substring containment on character lists. -/
def containsSubList (n : List Char) : List Char → Bool
  | [] => startsWithL n []
  | c :: t => startsWithL n (c :: t) || containsSubList n t

/-- The Python `needle in hay` substring test. -/
def containsSub (n hay : String) : Bool := containsSubList n.toList hay.toList

/-- Index of the first occurrence of `c` (Python `str.find`; the source
only calls it after a membership check, so the absent case is
internal). -/
def idxOfChar (c : Char) : List Char → Nat
  | [] => 0
  | d :: s => if d = c then 0 else idxOfChar c s + 1

/-- The bracketed-party extraction (billDashboardScraper.py:270-273):
`party_text[party_text.find("[")+1 : party_text.find("]")]` when both
brackets occur, else `""`. -/
def extractParty (s : String) : String :=
  let cs := s.toList
  if cs.contains '[' && cs.contains ']' then
    let i := idxOfChar '[' cs
    let j := idxOfChar ']' cs
    String.mk ((cs.drop (i + 1)).take (j - (i + 1)))
  else ""

/-- A `table.gaits-browser` sibling in a two-table section, with the
text of the nearest preceding `h3`/`h4` heading (for chamber
inference when only one table is present). -/
structure SectionTable where
  prevHeader : Option String
  rows : List Row

/-- Chamber inference (billDashboardScraper.py:238-248 and 331-339):
with two tables the labels are positional (first = House, second =
Senate); with one, the nearest preceding heading text containing
"House"/"Senate" decides, else "Unknown". -/
def inferChamber (numTables i : Nat) (t : SectionTable) : String :=
  if numTables = 2 then (if i = 0 then "House" else "Senate")
  else if numTables = 1 then
    match t.prevHeader with
    | some h =>
      if containsSub "House" h then "House"
      else if containsSub "Senate" h then "Senate"
      else "Unknown"
    | none => "Unknown"
  else "Unknown"

/-- One row of the sponsors loop (billDashboardScraper.py:253-294). -/
def processSponsorRow (state chamber : String) : Row → Except Unit (Option Record)
  | Row.bad => Except.error ()
  | Row.cells cols =>
    match cols with
    | c0 :: c1 :: c2 :: _ =>
      match c0.link with
      | none => Except.ok none
      | some a =>
        if truthy a.href = false then Except.ok none
        else
          let name := pyStrip a.text
          let url := "https://legiscan.com" ++ a.href.getD ""
          let party := extractParty (pyStrip c0.text)
          let billCount := pyStrip c1.text
          let rssUrl := match c2.link with
            | some rl => if truthy rl.href then rl.href.getD "" else ""
            | none => ""
          Except.ok (some [("Name", name), ("Party", party), ("URL", url),
            ("Bills Count", billCount), ("RSS URL", rssUrl),
            ("Chamber", chamber), ("State", state)])
    | _ => Except.ok none

/-- One row of the committees loop (billDashboardScraper.py:345-379). -/
def processCommitteeRow (state chamber : String) : Row → Except Unit (Option Record)
  | Row.bad => Except.error ()
  | Row.cells cols =>
    match cols with
    | c0 :: c1 :: c2 :: _ =>
      match c0.link with
      | none => Except.ok none
      | some a =>
        if truthy a.href = false then Except.ok none
        else
          let name := pyStrip a.text
          let url := "https://legiscan.com" ++ a.href.getD ""
          let billCount := pyStrip c1.text
          let rssUrl := match c2.link with
            | some rl => if truthy rl.href then rl.href.getD "" else ""
            | none => ""
          Except.ok (some [("Committee Name", name), ("URL", url),
            ("Bills Count", billCount), ("RSS URL", rssUrl),
            ("Chamber", chamber), ("State", state)])
    | _ => Except.ok none

/-- The per-table loop of the two-table sections
(billDashboardScraper.py:237-297): infer the chamber, drop the header
row, run the row loop, and append the chamber's records. -/
def processTables (f : String → Row → Except Unit (Option Record))
    (numTables : Nat) : Nat → List SectionTable → List Record
  | _, [] => []
  | i, t :: ts =>
    processRows (f (inferChamber numTables i t)) (t.rows.drop 1) ++
      processTables f numTables (i + 1) ts

/-- The document state a two-table section consumes. -/
structure TwoTableDoc where
  soupPresent : Bool
  anchor : Lookup Unit
  tables : Fetch (List SectionTable)

/-- The body of `scrape_sponsors` inside its `try`
(billDashboardScraper.py:219-300): missing anchor ⇒ `None`; fewer than
one table ⇒ `None`; otherwise process the tables and return `None` when
the combined list is empty (`return all_sponsors if all_sponsors else
None`). -/
def scrapeSponsorsBody (state : String) (d : TwoTableDoc) :
    Except Unit (Option (List Record)) :=
  match d.anchor with
  | Lookup.raises => Except.error ()
  | Lookup.missing => Except.ok none
  | Lookup.found _ =>
    match d.tables with
    | Fetch.raises => Except.error ()
    | Fetch.ok ts =>
      if ts.length < 1 then Except.ok none
      else
        let allSponsors := processTables (processSponsorRow state) ts.length 0 ts
        Except.ok (if allSponsors.isEmpty then none else some allSponsors)

/-- The method `scrape_sponsors` (billDashboardScraper.py:213). -/
def scrape_sponsors (state : String) (d : TwoTableDoc) :
    Option (List Record) :=
  if d.soupPresent = false then none
  else
    match scrapeSponsorsBody state d with
    | Except.ok r => r
    | Except.error _ => none

/-- The body of `scrape_committees` (billDashboardScraper.py:312-385). -/
def scrapeCommitteesBody (state : String) (d : TwoTableDoc) :
    Except Unit (Option (List Record)) :=
  match d.anchor with
  | Lookup.raises => Except.error ()
  | Lookup.missing => Except.ok none
  | Lookup.found _ =>
    match d.tables with
    | Fetch.raises => Except.error ()
    | Fetch.ok ts =>
      if ts.length < 1 then Except.ok none
      else
        let allCommittees := processTables (processCommitteeRow state) ts.length 0 ts
        Except.ok (if allCommittees.isEmpty then none else some allCommittees)

/-- The method `scrape_committees` (billDashboardScraper.py:306). -/
def scrape_committees (state : String) (d : TwoTableDoc) :
    Option (List Record) :=
  if d.soupPresent = false then none
  else
    match scrapeCommitteesBody state d with
    | Except.ok r => r
    | Except.error _ => none

/-- A row that raises or is skipped contributes nothing, and the
remaining rows are still processed. -/
theorem processRows_skip (f : Row → Except Unit (Option Record)) (r : Row)
    (xs ys : List Row)
    (h : f r = Except.error () ∨ f r = Except.ok none) :
    processRows f (xs ++ r :: ys) = processRows f (xs ++ ys) := by
  induction xs with
  | nil => rcases h with h | h <;> simp [processRows, h]
  | cons q qs ih =>
    cases hq : f q with
    | error u => simp [processRows, hq, ih]
    | ok o => cases o <;> simp [processRows, hq, ih]

/-- The row loop is a filter-map over the rows: the produced records
are exactly the successful rows' records, in original row order. -/
theorem processRows_eq_filterMap (f : Row → Except Unit (Option Record))
    (rows : List Row) :
    processRows f rows = rows.filterMap (fun r =>
      match f r with
      | Except.ok (some rec) => some rec
      | _ => none) := by
  induction rows with
  | nil => rfl
  | cons r rs ih =>
    cases hr : f r with
    | error u => simp [processRows, hr, List.filterMap_cons, ih]
    | ok o => cases o <;> simp [processRows, hr, List.filterMap_cons, ih]

/-- C4, counterexample.  The claim asserts that the empty "no data"
result `scrape_sponsors` produces on a document without a "sponsors"
anchor is distinguishable from the failure signal produced when an
exception is raised while parsing the document structure.  In the
source both paths return `None` (billDashboardScraper.py:223 and
:304), so the two outcomes are the identical value. -/
theorem claim_C4_counterexample :
    scrape_sponsors "AK" ⟨true, Lookup.missing, Fetch.ok []⟩ = none ∧
    scrape_sponsors "AK" ⟨true, Lookup.raises, Fetch.ok []⟩ = none ∧
    scrape_sponsors "AK" ⟨true, Lookup.missing, Fetch.ok []⟩ =
      scrape_sponsors "AK" ⟨true, Lookup.raises, Fetch.ok []⟩ :=
  ⟨rfl, rfl, rfl⟩

/-- C4, amended: on a parsed document without a "sponsors" anchor,
`scrape_sponsors` returns `None` without raising; an exception while
parsing the document structure also yields `None` — the two outcomes
are the same value, not distinguishable ones. -/
theorem claim_C4 (state : String) (t t' : Fetch (List SectionTable)) :
    scrape_sponsors state ⟨true, Lookup.missing, t⟩ = none ∧
    scrape_sponsors state ⟨true, Lookup.raises, t'⟩ = none :=
  ⟨rfl, rfl⟩

/-- A fixture data cell whose first-position anchor carries a href. -/
def fixCell (txt href : String) : Cell :=
  { link := some { href := some href, text := txt }, text := txt,
    dateSpan := none, actionDiv := none }

/-- A fixture cell without an anchor. -/
def fixPlain (txt : String) : Cell :=
  { link := none, text := txt, dateSpan := none, actionDiv := none }

/-- The C6 fixture table: 1 header row plus 4 data rows, of which the
second data row is malformed (only 2 cells). -/
def fixtureRows : List Row :=
  [Row.cells [fixPlain "Bill", fixPlain "Summary", fixPlain "Action"],
   Row.cells [fixCell "SB1" "/AK/bill/SB1/1", fixPlain "first bill",
     fixPlain "a1"],
   Row.cells [fixPlain "HB9", fixPlain "malformed"],
   Row.cells [fixCell "SB2" "/AK/bill/SB2/2", fixPlain "second bill",
     fixPlain "a2"],
   Row.cells [fixCell "SB3" "/AK/bill/SB3/3", fixPlain "third bill",
     fixPlain "a3"]]

/-- The C6 fixture document. -/
def fixtureDoc : TableDoc :=
  { soupPresent := true, anchor := Lookup.found (),
    tableRows := Lookup.found fixtureRows }

/-- The three records the fixture must yield, in original row order. -/
def fixtureExpected : List Record :=
  [[("Bill Number", "SB1"), ("Bill URL", "https://legiscan.com/AK/bill/SB1/1"),
    ("Summary", "first bill"), ("Action", "N/A"), ("Action URL", ""),
    ("Date", "N/A"), ("State", "AK")],
   [("Bill Number", "SB2"), ("Bill URL", "https://legiscan.com/AK/bill/SB2/2"),
    ("Summary", "second bill"), ("Action", "N/A"), ("Action URL", ""),
    ("Date", "N/A"), ("State", "AK")],
   [("Bill Number", "SB3"), ("Bill URL", "https://legiscan.com/AK/bill/SB3/3"),
    ("Summary", "third bill"), ("Action", "N/A"), ("Action URL", ""),
    ("Date", "N/A"), ("State", "AK")]]

/-- C6 (confirmed): the extractor drops the header row; a row with fewer
than 3 cells is skipped (`Except.ok none`); a row whose first cell lacks
an anchor is skipped; a skipped row does not abort the processing of the
remaining rows; the produced records are the filter-map of the rows in
original row order; and the 5-row fixture (1 header + 4 data rows, one
with only 2 cells) yields exactly the 3 valid records. -/
theorem claim_C6 (state : String) (rows xs ys : List Row) (cols : List Cell)
    (hlen : cols.length < 3) (c : Cell) (hc : c.link = none) (cs : List Cell) :
    scrape_active_bills state ⟨true, Lookup.found (), Lookup.found rows⟩ =
      some (processRows (processActiveRow state) (rows.drop 1)) ∧
    processActiveRow state (Row.cells cols) = Except.ok none ∧
    processActiveRow state (Row.cells (c :: cs)) = Except.ok none ∧
    processRows (processActiveRow state) (xs ++ Row.cells cols :: ys) =
      processRows (processActiveRow state) (xs ++ ys) ∧
    processRows (processActiveRow state) rows =
      rows.filterMap (fun r =>
        match processActiveRow state r with
        | Except.ok (some rec) => some rec
        | _ => none) ∧
    scrape_active_bills "AK" fixtureDoc = some fixtureExpected := by
  have hshort : processActiveRow state (Row.cells cols) = Except.ok none := by
    match cols, hlen with
    | [], _ => rfl
    | [_], _ => rfl
    | [_, _], _ => rfl
    | c0 :: c1 :: c2 :: restc, h => simp at h; omega
  refine ⟨rfl, hshort, ?_, ?_, processRows_eq_filterMap _ rows, by decide⟩
  · match cs with
    | [] => rfl
    | [_] => rfl
    | c1 :: c2 :: restc => simp [processActiveRow, hc]
  · exact processRows_skip _ _ xs ys (Or.inr hshort)

/-- C6, witness: the theorem applied to the fixture — the malformed
2-cell row is skipped, and the fixture yields exactly the 3 records. -/
theorem claim_C6_witness :
    processActiveRow "AK" (Row.cells [fixPlain "HB9", fixPlain "malformed"]) =
      Except.ok none ∧
    scrape_active_bills "AK" fixtureDoc = some fixtureExpected := by
  have h := claim_C6 "AK" fixtureRows [] [] [fixPlain "HB9", fixPlain "malformed"]
    (by decide) (fixPlain "x") rfl []
  exact ⟨h.2.1, h.2.2.2.2.2⟩

/-- C9 (confirmed): every section-scraping method is total on any
parsed-document state — it returns a record list or `None` — and never
propagates an exception: an absent soup yields `None`, a raise in any
document-structure lookup (anchor or table navigation) is caught by the
outer handler and yields `None`, and a raising row is skipped while the
remaining rows are still processed. -/
theorem claim_C9 :
    (∀ state d, scrape_active_bills state d = none ∨
      ∃ l, scrape_active_bills state d = some l) ∧
    (∀ state d, scrape_sponsors state d = none ∨
      ∃ l, scrape_sponsors state d = some l) ∧
    (∀ state d, scrape_committees state d = none ∨
      ∃ l, scrape_committees state d = some l) ∧
    (∀ state d, scrape_viewed_bills state d = none ∨
      ∃ l, scrape_viewed_bills state d = some l) ∧
    (∀ state d, scrape_monitored_bills state d = none ∨
      ∃ l, scrape_monitored_bills state d = some l) ∧
    (∀ state a t, scrape_active_bills state ⟨false, a, t⟩ = none) ∧
    (∀ state t, scrape_active_bills state ⟨true, Lookup.raises, t⟩ = none) ∧
    (∀ state,
      scrape_active_bills state ⟨true, Lookup.found (), Lookup.raises⟩ = none) ∧
    (∀ state a t, scrape_viewed_bills state ⟨false, a, t⟩ = none) ∧
    (∀ state t, scrape_viewed_bills state ⟨true, Lookup.raises, t⟩ = none) ∧
    (∀ state,
      scrape_viewed_bills state ⟨true, Lookup.found (), Lookup.raises⟩ = none) ∧
    (∀ state a t, scrape_monitored_bills state ⟨false, a, t⟩ = none) ∧
    (∀ state t, scrape_monitored_bills state ⟨true, Lookup.raises, t⟩ = none) ∧
    (∀ state,
      scrape_monitored_bills state ⟨true, Lookup.found (), Lookup.raises⟩ = none) ∧
    (∀ state a t, scrape_sponsors state ⟨false, a, t⟩ = none) ∧
    (∀ state t, scrape_sponsors state ⟨true, Lookup.raises, t⟩ = none) ∧
    (∀ state,
      scrape_sponsors state ⟨true, Lookup.found (), Fetch.raises⟩ = none) ∧
    (∀ state a t, scrape_committees state ⟨false, a, t⟩ = none) ∧
    (∀ state t, scrape_committees state ⟨true, Lookup.raises, t⟩ = none) ∧
    (∀ state,
      scrape_committees state ⟨true, Lookup.found (), Fetch.raises⟩ = none) ∧
    (∀ state xs ys,
      processRows (processActiveRow state) (xs ++ Row.bad :: ys) =
        processRows (processActiveRow state) (xs ++ ys)) ∧
    (∀ state xs ys,
      processRows (processViewedRow state) (xs ++ Row.bad :: ys) =
        processRows (processViewedRow state) (xs ++ ys)) ∧
    (∀ state xs ys,
      processRows (processMonitoredRow state) (xs ++ Row.bad :: ys) =
        processRows (processMonitoredRow state) (xs ++ ys)) ∧
    (∀ state ch xs ys,
      processRows (processSponsorRow state ch) (xs ++ Row.bad :: ys) =
        processRows (processSponsorRow state ch) (xs ++ ys)) ∧
    (∀ state ch xs ys,
      processRows (processCommitteeRow state ch) (xs ++ Row.bad :: ys) =
        processRows (processCommitteeRow state ch) (xs ++ ys)) := by
  refine ⟨?_, ?_, ?_, ?_, ?_, ?_, ?_, ?_, ?_, ?_, ?_, ?_, ?_, ?_, ?_, ?_, ?_,
    ?_, ?_, ?_, ?_, ?_, ?_, ?_, ?_⟩
  · intro state d
    cases h : scrape_active_bills state d with
    | none => exact Or.inl rfl
    | some l => exact Or.inr ⟨l, rfl⟩
  · intro state d
    cases h : scrape_sponsors state d with
    | none => exact Or.inl rfl
    | some l => exact Or.inr ⟨l, rfl⟩
  · intro state d
    cases h : scrape_committees state d with
    | none => exact Or.inl rfl
    | some l => exact Or.inr ⟨l, rfl⟩
  · intro state d
    cases h : scrape_viewed_bills state d with
    | none => exact Or.inl rfl
    | some l => exact Or.inr ⟨l, rfl⟩
  · intro state d
    cases h : scrape_monitored_bills state d with
    | none => exact Or.inl rfl
    | some l => exact Or.inr ⟨l, rfl⟩
  · intro state a t; rfl
  · intro state t; rfl
  · intro state; rfl
  · intro state a t; rfl
  · intro state t; rfl
  · intro state; rfl
  · intro state a t; rfl
  · intro state t; rfl
  · intro state; rfl
  · intro state a t; rfl
  · intro state t; rfl
  · intro state; rfl
  · intro state a t; rfl
  · intro state t; rfl
  · intro state; rfl
  · intro state xs ys; exact processRows_skip _ _ xs ys (Or.inl rfl)
  · intro state xs ys; exact processRows_skip _ _ xs ys (Or.inl rfl)
  · intro state xs ys; exact processRows_skip _ _ xs ys (Or.inl rfl)
  · intro state ch xs ys; exact processRows_skip _ _ xs ys (Or.inl rfl)
  · intro state ch xs ys; exact processRows_skip _ _ xs ys (Or.inl rfl)

/-! ## `scrapeBillText.download_pdf_bill` (lines 351-494)

Both the direct-link branch (369-429) and the embedded-object branch
(435-481) share the same post-download logic: poll for the file's
appearance up to a 45-unit timeout, then convert with PyPDF2 (extract
each page's text, join the pages with a blank line, write the sibling
`.txt`), delete the original binary, and return the `.txt` path; a raise
during conversion removes the binary and returns `None`.  The oracle
records whether a PDF was located, whether the download appeared, and
what page extraction produces (the page texts, or a raise). -/

structure PdfEnv where
  pdfFound : Bool
  fileAppears : Bool
  extraction : Except Unit (List String)

/-- The observable outcome of one `download_pdf_bill` call: the return
value, the sibling `.txt` file written (path and content), and whether
the downloaded binary is still on disk afterwards. -/
structure PdfResult where
  result : Option String
  txtWritten : Option (String × String)
  pdfExistsAfter : Bool
deriving DecidableEq

/-- Python `os.path.splitext(s)[0]`: the name up to the last dot (the whole
name when there is no dot). -/
def splitextBase (s : String) : String :=
  let cs := s.data
  let ext := cs.reverse.takeWhile (fun c => ¬ (c = '.'))
  if ext.length = cs.length then s
  else String.mk (cs.take (cs.length - ext.length - 1))

/-- The conversion step (scrapeBillText.py:396-426): on successful page
extraction the pages are joined with `"\n\n"`, written to the sibling
`.txt`, and the PDF is removed; if extraction raises, the handler
removes the PDF and returns `None` with no `.txt` produced. -/
def convertPdfToText (extraction : Except Unit (List String))
    (download_dir pdf_filename : String) : PdfResult :=
  let text_path := download_dir ++ "/" ++ (splitextBase pdf_filename ++ ".txt")
  match extraction with
  | Except.ok pages =>
    { result := some text_path,
      txtWritten := some (text_path, String.intercalate "\n\n" pages),
      pdfExistsAfter := false }
  | Except.error _ =>
    { result := none, txtWritten := none, pdfExistsAfter := false }

/-- The function `download_pdf_bill` (scrapeBillText.py:351): no locatable PDF ⇒
`None`; download never appears within the timeout ⇒ `None`; otherwise
the conversion step runs. -/
def download_pdf_bill (env : PdfEnv) (download_dir pdf_filename : String) :
    PdfResult :=
  if env.pdfFound = false then
    { result := none, txtWritten := none, pdfExistsAfter := false }
  else if env.fileAppears = false then
    { result := none, txtWritten := none, pdfExistsAfter := false }
  else convertPdfToText env.extraction download_dir pdf_filename

/-- C5 (confirmed): whenever the downloaded PDF appears within the
timeout, the original binary no longer exists after the call whether or
not extraction succeeded; on successful extraction the sibling `.txt`
(same base name) holds the pages joined by a blank line and its path is
returned; when extraction raises, no `.txt` is produced and the call
returns `None`. -/
theorem claim_C5 (env : PdfEnv) (dir name : String)
    (hfound : env.pdfFound = true) (happ : env.fileAppears = true) :
    (download_pdf_bill env dir name).pdfExistsAfter = false ∧
    (∀ pages, env.extraction = Except.ok pages →
      (download_pdf_bill env dir name).txtWritten =
        some (dir ++ "/" ++ (splitextBase name ++ ".txt"),
          String.intercalate "\n\n" pages) ∧
      (download_pdf_bill env dir name).result =
        some (dir ++ "/" ++ (splitextBase name ++ ".txt"))) ∧
    (env.extraction = Except.error () →
      (download_pdf_bill env dir name).txtWritten = none ∧
      (download_pdf_bill env dir name).result = none) := by
  unfold download_pdf_bill
  rw [hfound, happ]
  simp only [Bool.true_eq_false, if_false]
  refine ⟨?_, ?_, ?_⟩
  · cases hx : env.extraction with
    | ok pages => simp [convertPdfToText, hx]
    | error u => simp [convertPdfToText, hx]
  · intro pages hx
    simp [convertPdfToText, hx]
  · intro hx
    simp [convertPdfToText, hx]

/-- C5, witness: a two-page fixture PDF named `bill.pdf` in directory
`d` produces `d/bill.txt` containing both pages joined by a blank line,
with the binary gone afterwards. -/
theorem claim_C5_witness :
    (download_pdf_bill ⟨true, true, Except.ok ["page one", "page two"]⟩
      "d" "bill.pdf").txtWritten = some ("d/bill.txt", "page one\n\npage two") ∧
    (download_pdf_bill ⟨true, true, Except.ok ["page one", "page two"]⟩
      "d" "bill.pdf").pdfExistsAfter = false := by
  have h := claim_C5 ⟨true, true, Except.ok ["page one", "page two"]⟩
    "d" "bill.pdf" rfl rfl
  have h2 := h.2.1 ["page one", "page two"] rfl
  refine ⟨h2.1.trans (by decide), h.1⟩

/-! ## `billDashboardScraper.save_to_csv` (lines 525-551)

`if not data` fails fast; `os.makedirs(os.path.dirname(filename),
exist_ok=True)` may raise (caught, `False`); the fieldnames are the
first record's keys in insertion order; `csv.DictWriter` writes the
header then one row per record, raising on a record with a key outside
the fieldnames; any raise is caught and reported as `False`.  The
filesystem outcome oracle records whether the directory creation and
the file write succeed. -/

structure CsvEnv where
  mkdirOk : Bool
  writeOk : Bool

/-- The tabular file a successful call writes. -/
structure CsvFile where
  header : List String
  rows : List (List String)
deriving DecidableEq

/-- First value bound to key `k` in a record (dict lookup). -/
def lookupField (k : String) : Record → Option String
  | [] => none
  | (k2, v) :: rest => if k2 = k then some v else lookupField k rest

/-- One `DictWriter` row: a key outside the fieldnames raises
(`extrasaction='raise'` default); a missing key yields the empty
rest-value. -/
def dictWriterRow (fieldnames : List String) (rec : Record) :
    Except Unit (List String) :=
  if rec.all (fun kv => fieldnames.contains kv.1) then
    Except.ok (fieldnames.map (fun k => (lookupField k rec).getD ""))
  else Except.error ()

/-- Python `writer.writerows(data)`: all rows in order, failing on the first
bad record. -/
def writeRows (fieldnames : List String) :
    List Record → Except Unit (List (List String))
  | [] => Except.ok []
  | r :: rs =>
    match dictWriterRow fieldnames r with
    | Except.error _ => Except.error ()
    | Except.ok row =>
      match writeRows fieldnames rs with
      | Except.error _ => Except.error ()
      | Except.ok rows => Except.ok (row :: rows)

/-- The function `save_to_csv` (billDashboardScraper.py:525): returns the boolean
result together with the file written on success. -/
def save_to_csv (data : Option (List Record)) (env : CsvEnv) :
    Bool × Option CsvFile :=
  match data with
  | none => (false, none)
  | some [] => (false, none)
  | some (r0 :: rest) =>
    if env.mkdirOk = false then (false, none)
    else
      let fieldnames := r0.map Prod.fst
      if env.writeOk = false then (false, none)
      else
        match writeRows fieldnames (r0 :: rest) with
        | Except.error _ => (false, none)
        | Except.ok rows => (true, some ⟨fieldnames, rows⟩)

theorem writeRows_ok (fieldnames : List String) (l : List Record)
    (h : ∀ rec ∈ l, rec.all (fun kv => fieldnames.contains kv.1) = true) :
    writeRows fieldnames l =
      Except.ok (l.map (fun rec =>
        fieldnames.map (fun k => (lookupField k rec).getD ""))) := by
  induction l with
  | nil => rfl
  | cons r rs ih =>
    have hr := h r (by simp)
    have ihr := ih (fun rec hrec => h rec (by simp [hrec]))
    simp [writeRows, dictWriterRow, ihr]
    rw [if_pos hr]

/-- C7 (confirmed): `save_to_csv` returns `False` — without raising —
when the record list is absent or empty or the directory cannot be
created; otherwise (write succeeding, records' keys drawn from the
first record's) it writes exactly one header row holding the first
record's field names in insertion order, one row per record, and
returns `True`. -/
theorem claim_C7 (env : CsvEnv) (r0 : Record) (rest : List Record) (b : Bool)
    (hm : env.mkdirOk = true) (hw : env.writeOk = true)
    (hkeys : ∀ rec ∈ r0 :: rest,
      rec.all (fun kv => (r0.map Prod.fst).contains kv.1) = true) :
    save_to_csv none env = (false, none) ∧
    save_to_csv (some []) env = (false, none) ∧
    save_to_csv (some (r0 :: rest)) ⟨false, b⟩ = (false, none) ∧
    save_to_csv (some (r0 :: rest)) env =
      (true, some ⟨r0.map Prod.fst,
        (r0 :: rest).map (fun rec =>
          (r0.map Prod.fst).map (fun k => (lookupField k rec).getD ""))⟩) := by
  refine ⟨rfl, rfl, rfl, ?_⟩
  unfold save_to_csv
  rw [hm, hw]
  simp only [Bool.true_eq_false, if_false]
  rw [writeRows_ok _ _ hkeys]

/-- C7, witness: a concrete two-record dataset is written with the first
record's keys as the single header row and one row per record. -/
theorem claim_C7_witness :
    save_to_csv (some [[("A", "1"), ("B", "2")], [("A", "3"), ("B", "4")]])
      ⟨true, true⟩ =
      (true, some ⟨["A", "B"], [["1", "2"], ["3", "4"]]⟩) := by
  have h := claim_C7 ⟨true, true⟩ [("A", "1"), ("B", "2")]
    [[("A", "3"), ("B", "4")]] false rfl rfl (by decide)
  exact h.2.2.2.trans (by decide)

/-! ## `scrapeBillText.download_bill_text` (lines 199-305): the retry
loop and its filesystem footprint

Before any attempt the function derives the bill key, fixes the download
directory (the caller's, or `legiscan_bills/{bill_key}` under the
working directory) and runs `os.makedirs(download_dir, exist_ok=True)`
(line 221).  It then iterates `proxy_list if use_proxy and proxy_list
else [None]` (line 226); the loop body never reads the iteration
variable `proxy` — it is passed to nothing — so each attempt's behavior
is a function of the attempt index only, which is what the `env` oracle
records.  The filesystem operations the body can perform are directory
creation (`os.makedirs` in `setup_undetected_driver`), file writes
(browser download, `.txt`/`.html` writes) and file removals
(`os.remove` of the PDF); nothing in `scrapeBillText.py` removes a
directory. -/

inductive FsOp
  | mkdir (d : String)
  | writeFile (p : String)
  | removeFile (p : String)

/-- The filesystem as the scraper observes it: which directories exist
and which files exist. -/
structure Fs where
  dirs : List String
  files : List String

def applyOp (fs : Fs) : FsOp → Fs
  | FsOp.mkdir d => { fs with dirs := d :: fs.dirs }
  | FsOp.writeFile p => { fs with files := p :: fs.files }
  | FsOp.removeFile p =>
    { fs with files := fs.files.filter (fun q => if q = p then false else true) }

/-- What one attempt of the loop body does: its filesystem operations
and its outcome (`some path` when a branch succeeded and the attempt
returns, `none` when the attempt failed or raised and the loop
continues). -/
structure Attempt where
  ops : List FsOp
  result : Option String

/-- Python `proxies_to_try = proxy_list if use_proxy and proxy_list else
[None]` (scrapeBillText.py:226), with Python truthiness of the list. -/
def proxiesToTry (use_proxy : Bool) (proxy_list : Option (List String)) :
    List (Option String) :=
  match use_proxy, proxy_list with
  | true, some ps => if ps.isEmpty then [none] else ps.map some
  | true, none => [none]
  | false, _ => [none]

/-- The `for proxy in proxies_to_try` loop (scrapeBillText.py:228-302):
one attempt per list element, returning on the first success; the
element itself is never consulted. -/
def downloadAttempts (env : Nat → Attempt) :
    List (Option String) → Nat → Fs → Fs × Option String
  | [], _, fs => (fs, none)
  | _proxy :: rest, i, fs =>
    let a := env i
    let fs2 := a.ops.foldl applyOp fs
    match a.result with
    | some path => (fs2, some path)
    | none => downloadAttempts env rest (i + 1) fs2

/-- The function `download_bill_text` (scrapeBillText.py:199): derive the bill key,
fix and create the download directory, then run the attempt loop. -/
def download_bill_text (url : String) (download_dir : Option String)
    (cwd : String) (use_proxy : Bool) (proxy_list : Option (List String))
    (env : Nat → Attempt) (fs : Fs) : Fs × Option String :=
  let bill_name := extract_bill_info url
  let dir := match download_dir with
    | some d => d
    | none => cwd ++ "/legiscan_bills/" ++ bill_name
  let fs1 := applyOp fs (FsOp.mkdir dir)
  downloadAttempts env (proxiesToTry use_proxy proxy_list) 0 fs1

theorem downloadAttempts_length (env : Nat → Attempt) :
    ∀ ps qs : List (Option String), ps.length = qs.length →
    ∀ i fs, downloadAttempts env ps i fs = downloadAttempts env qs i fs := by
  intro ps
  induction ps with
  | nil =>
    intro qs hlen i fs
    cases qs with
    | nil => rfl
    | cons q qt => simp at hlen
  | cons p pt ih =>
    intro qs hlen i fs
    cases qs with
    | nil => simp at hlen
    | cons q qt =>
      simp only [downloadAttempts]
      cases (env i).result with
      | some path => rfl
      | none => exact ih qt (by simpa using hlen) (i + 1) _

/-- No filesystem operation of the loop body removes a directory. -/
theorem applyOp_dirs_mono (fs : Fs) (op : FsOp) (d : String)
    (h : d ∈ fs.dirs) : d ∈ (applyOp fs op).dirs := by
  cases op with
  | mkdir d2 => exact List.mem_cons_of_mem _ h
  | writeFile p => exact h
  | removeFile p => exact h

theorem foldl_dirs_mono (ops : List FsOp) (fs : Fs) (d : String)
    (h : d ∈ fs.dirs) : d ∈ (ops.foldl applyOp fs).dirs := by
  induction ops generalizing fs with
  | nil => exact h
  | cons op rest ih => exact ih _ (applyOp_dirs_mono fs op d h)

theorem downloadAttempts_dirs_mono (env : Nat → Attempt) :
    ∀ (ps : List (Option String)) (i : Nat) (fs : Fs) (d : String),
    d ∈ fs.dirs → d ∈ (downloadAttempts env ps i fs).1.dirs := by
  intro ps
  induction ps with
  | nil => intro i fs d h; exact h
  | cons p rest ih =>
    intro i fs d h
    cases hres : (env i).result with
    | some path =>
      simp only [downloadAttempts, hres]
      exact foldl_dirs_mono _ _ _ h
    | none =>
      simp only [downloadAttempts, hres]
      exact ih _ _ _ (foldl_dirs_mono _ _ _ h)

/-- The all-failing environment: every attempt performs no filesystem
operation and fails. -/
def failEnv : Nat → Attempt := fun _ => { ops := [], result := none }

theorem downloadAttempts_failEnv :
    ∀ (ps : List (Option String)) (i : Nat) (fs : Fs),
    downloadAttempts failEnv ps i fs = (fs, none) := by
  intro ps
  induction ps with
  | nil => intro i fs; rfl
  | cons p rest ih => intro i fs; simpa [downloadAttempts, failEnv] using ih (i + 1) fs

/-- C8 (confirmed): the behavior of `download_bill_text` does not depend
on the proxy endpoint strings, only on how many there are — the loop
body never reads the iteration variable, so two runs differing only in
the proxy values (lists of equal length), with the same per-attempt
environment, produce the identical filesystem and result. -/
theorem claim_C8 (url cwd : String) (dd : Option String)
    (env : Nat → Attempt) (fs : Fs) (l1 l2 : List String)
    (hlen : l1.length = l2.length) :
    download_bill_text url dd cwd true (some l1) env fs =
      download_bill_text url dd cwd true (some l2) env fs := by
  unfold download_bill_text
  apply downloadAttempts_length
  cases l1 with
  | nil =>
    cases l2 with
    | nil => rfl
    | cons b bs => simp at hlen
  | cons a as =>
    cases l2 with
    | nil => simp at hlen
    | cons b bs => simpa [proxiesToTry] using hlen

/-- C8, witness: two concrete runs with different 2-element proxy lists
coincide. -/
theorem claim_C8_witness :
    download_bill_text "u" (some "d") "w" true (some ["proxyA", "proxyB"])
      failEnv ⟨[], []⟩ =
    download_bill_text "u" (some "d") "w" true (some ["proxyC", "proxyD"])
      failEnv ⟨[], []⟩ :=
  claim_C8 "u" "w" (some "d") failEnv ⟨[], []⟩ ["proxyA", "proxyB"]
    ["proxyC", "proxyD"] rfl

/-- C10 (confirmed): `download_bill_text` creates the output directory
(the caller-supplied one, or `legiscan_bills/{bill_key}` under the
working directory) before any attempt, and no operation of the loop
body removes a directory, so the directory exists after the call for
every environment — in particular for the all-failing environment,
where the result is `None` and yet the directory was still created. -/
theorem claim_C10 (url cwd dd : String) (use_proxy : Bool)
    (proxy_list : Option (List String)) (env : Nat → Attempt) (fs : Fs) :
    dd ∈ (download_bill_text url (some dd) cwd use_proxy proxy_list env fs).1.dirs ∧
    (cwd ++ "/legiscan_bills/" ++ extract_bill_info url) ∈
      (download_bill_text url none cwd use_proxy proxy_list env fs).1.dirs ∧
    ((download_bill_text url (some dd) cwd use_proxy proxy_list failEnv fs).2 = none ∧
      dd ∈ (download_bill_text url (some dd) cwd use_proxy proxy_list failEnv fs).1.dirs) := by
  refine ⟨?_, ?_, ?_, ?_⟩
  · exact downloadAttempts_dirs_mono env _ 0 _ dd (List.mem_cons_self _ _)
  · exact downloadAttempts_dirs_mono env _ 0 _ _ (List.mem_cons_self _ _)
  · unfold download_bill_text
    rw [downloadAttempts_failEnv]
  · unfold download_bill_text
    rw [downloadAttempts_failEnv]
    exact List.mem_cons_self _ _

end Scraper
